import Mathlib

/-!
Shallow embedding of the GPS Bus Tracking repository (Express + React, in-memory
MemStorage). Numbers of the source (JS doubles) are modelled as rationals; JS
Map objects are modelled as functions from keys to optional records; optional /
nullable fields are modelled with Option. Randomness (crypto tokens, Math.random)
and wall-clock times (new Date()) are modelled as explicit input parameters.
-/

namespace GPSBus

/-- JS Math.round: rounds half toward positive infinity. -/
def jsRound (q : ℚ) : ℤ := Int.floor (q + 1/2)

/-- A latitude/longitude pair, as in the jsonb location columns of shared/schema.ts. -/
structure LatLng where
  lat : ℚ
  lng : ℚ
  deriving DecidableEq, Repr

/-- The Bus record of shared/schema.ts (table buses). The status column is a text
enum taking the values "on-time", "delayed", "out-of-service"; speed, driverId and
lastStop are nullable. -/
structure Bus where
  id : ℕ
  busNumber : String
  route : String
  status : String
  capacity : ℤ
  currentCapacity : ℤ
  location : LatLng
  speed : Option ℚ
  driverId : Option ℕ
  lastStop : Option String
  isActive : Bool
  deriving DecidableEq, Repr

/-- Line 17 of bus-info-panel.tsx: `const speedKmh = bus.speed || 20`. JS `||`
falls through on the falsy values 0, null and undefined, so a missing or zero
speed becomes 20 km/h. -/
def effectiveSpeedKmh (bus : Bus) : ℚ :=
  match bus.speed with
  | none => 20
  | some s => if s = 0 then 20 else s

/-- calculateETA of bus-info-panel.tsx (lines 14-21): converts the (defaulted)
speed to m/s, divides the given stop distance by it and returns whole minutes
via Math.round. -/
def calculateETA (bus : Bus) (stopDistance : ℚ) : ℤ :=
  let speedKmh := effectiveSpeedKmh bus
  let speedMps := speedKmh * 1000 / 3600
  let timeSeconds := stopDistance / speedMps
  jsRound (timeSeconds / 60)

/-- One entry of the nextStops array in bus-info-panel.tsx. -/
structure StopEta where
  name : String
  distance : ℚ
  eta : ℤ
  progress : ℚ
  deriving DecidableEq, Repr

/-- The nextStops array of bus-info-panel.tsx (lines 37-41): three fixed sample
stops at hard-coded distances, each given an ETA by calculateETA, computed for
whatever bus is displayed. -/
def nextStops (bus : Bus) : List StopEta :=
  [⟨"Science Building", 900, calculateETA bus 900, 65⟩,
   ⟨"Library", 2100, calculateETA bus 2100, 30⟩,
   ⟨"Dormitories", 3600, calculateETA bus 3600, 10⟩]

/-- getNearestBuses of home-page.tsx (lines 119-130): keeps buses whose status is
not "out-of-service", takes the first three, and pairs each with a simulated ETA
`Math.floor(Math.random() * 20) + 1`; the Math.random draws are modelled by the
explicit stream `rand`, indexed by position in the mapped list. -/
def getNearestBuses (buses : List Bus) (rand : ℕ → ℚ) : List (Bus × ℤ) :=
  (((buses.filter (fun b => b.status != "out-of-service")).take 3).enum).map
    (fun p => (p.2, Int.floor (rand p.1 * 20) + 1))

/-- The formula of the specification (section 4.3 and the C6 scenario): the ETA in
minutes to a stop equals (distance-along-route of the stop minus the vehicle's
current distance-along-route) divided by the speed. Written from the spec, to be
compared against calculateETA. -/
def etaSpecMinutes (stopAlong vehicleAlong speedKmh : ℚ) : ℚ :=
  ((stopAlong - vehicleAlong) / (speedKmh * 1000 / 3600)) / 60

/-- The User record of shared/schema.ts (table users). Timestamp columns are
modelled as integer epoch values. -/
structure User where
  id : ℕ
  username : String
  email : String
  password : String
  fullName : String
  role : String
  urn : Option String
  department : Option String
  classYear : Option String
  contactNumber : Option String
  address : Option String
  isEmailVerified : Bool
  verificationToken : Option String
  lastLogin : Option ℤ
  createdAt : Option ℤ
  deriving DecidableEq, Repr

/-- The BusStop record of shared/schema.ts (table busStops). -/
structure BusStop where
  id : ℕ
  name : String
  location : LatLng
  routeId : ℕ
  deriving DecidableEq, Repr

/-- The Route record of shared/schema.ts (table routes); stops is a jsonb array
of stop ids in order. -/
structure Route where
  id : ℕ
  name : String
  description : Option String
  stops : List ℕ
  isActive : Bool
  deriving DecidableEq, Repr

/-- The Driver record of shared/schema.ts (table drivers). -/
structure Driver where
  id : ℕ
  name : String
  contactNumber : Option String
  isActive : Bool
  deriving DecidableEq, Repr

/-- The Payment record of shared/schema.ts (table payments); dueDate is a date
string, paymentDate and createdAt epoch values. -/
structure Payment where
  id : ℕ
  userId : ℕ
  amount : ℤ
  dueDate : String
  isPaid : Bool
  paymentDate : Option ℤ
  paymentMethod : Option String
  description : String
  category : String
  semester : Option String
  academicYear : Option String
  createdAt : Option ℤ
  deriving DecidableEq, Repr

/-- InsertUser: the insertUserSchema pick of shared/schema.ts (no id, no derived
fields). -/
structure InsertUser where
  username : String
  email : String
  password : String
  fullName : String
  role : String
  urn : Option String
  department : Option String
  classYear : Option String
  contactNumber : Option String
  address : Option String
  deriving DecidableEq, Repr

/-- InsertBus: insertBusSchema, every Bus column except id. -/
structure InsertBus where
  busNumber : String
  route : String
  status : String
  capacity : ℤ
  currentCapacity : ℤ
  location : LatLng
  speed : Option ℚ
  driverId : Option ℕ
  lastStop : Option String
  isActive : Bool
  deriving DecidableEq, Repr

/-- InsertBusStop: insertBusStopSchema, every BusStop column except id. -/
structure InsertBusStop where
  name : String
  location : LatLng
  routeId : ℕ
  deriving DecidableEq, Repr

/-- InsertRoute: insertRouteSchema, every Route column except id. -/
structure InsertRoute where
  name : String
  description : Option String
  stops : List ℕ
  isActive : Bool
  deriving DecidableEq, Repr

/-- InsertDriver: insertDriverSchema, every Driver column except id. -/
structure InsertDriver where
  name : String
  contactNumber : Option String
  isActive : Bool
  deriving DecidableEq, Repr

/-- InsertPayment: insertPaymentSchema (no id, isPaid, paymentDate,
paymentMethod, createdAt). -/
structure InsertPayment where
  userId : ℕ
  amount : ℤ
  dueDate : String
  description : String
  category : String
  semester : Option String
  academicYear : Option String
  deriving DecidableEq, Repr

/-- A Partial-record patch for the spread merge `\x7b ...user, ...patch \x7d` of
MemStorage.updateUser: a present field (some v) overrides, an absent field
(none) keeps the stored value. -/
structure UserPatch where
  id : Option ℕ := none
  username : Option String := none
  email : Option String := none
  password : Option String := none
  fullName : Option String := none
  role : Option String := none
  urn : Option (Option String) := none
  department : Option (Option String) := none
  classYear : Option (Option String) := none
  contactNumber : Option (Option String) := none
  address : Option (Option String) := none
  isEmailVerified : Option Bool := none
  verificationToken : Option (Option String) := none
  lastLogin : Option (Option ℤ) := none
  createdAt : Option (Option ℤ) := none

/-- The spread merge of updateUser. -/
def User.merge (u : User) (p : UserPatch) : User :=
  { id := p.id.getD u.id
    username := p.username.getD u.username
    email := p.email.getD u.email
    password := p.password.getD u.password
    fullName := p.fullName.getD u.fullName
    role := p.role.getD u.role
    urn := p.urn.getD u.urn
    department := p.department.getD u.department
    classYear := p.classYear.getD u.classYear
    contactNumber := p.contactNumber.getD u.contactNumber
    address := p.address.getD u.address
    isEmailVerified := p.isEmailVerified.getD u.isEmailVerified
    verificationToken := p.verificationToken.getD u.verificationToken
    lastLogin := p.lastLogin.getD u.lastLogin
    createdAt := p.createdAt.getD u.createdAt }

/-- Partial-record patch for MemStorage.updateBus. -/
structure BusPatch where
  id : Option ℕ := none
  busNumber : Option String := none
  route : Option String := none
  status : Option String := none
  capacity : Option ℤ := none
  currentCapacity : Option ℤ := none
  location : Option LatLng := none
  speed : Option (Option ℚ) := none
  driverId : Option (Option ℕ) := none
  lastStop : Option (Option String) := none
  isActive : Option Bool := none

/-- The spread merge of updateBus. -/
def Bus.merge (b : Bus) (p : BusPatch) : Bus :=
  { id := p.id.getD b.id
    busNumber := p.busNumber.getD b.busNumber
    route := p.route.getD b.route
    status := p.status.getD b.status
    capacity := p.capacity.getD b.capacity
    currentCapacity := p.currentCapacity.getD b.currentCapacity
    location := p.location.getD b.location
    speed := p.speed.getD b.speed
    driverId := p.driverId.getD b.driverId
    lastStop := p.lastStop.getD b.lastStop
    isActive := p.isActive.getD b.isActive }

/-- Partial-record patch for MemStorage.updateRoute. -/
structure RoutePatch where
  id : Option ℕ := none
  name : Option String := none
  description : Option (Option String) := none
  stops : Option (List ℕ) := none
  isActive : Option Bool := none

/-- The spread merge of updateRoute. -/
def Route.merge (r : Route) (p : RoutePatch) : Route :=
  { id := p.id.getD r.id
    name := p.name.getD r.name
    description := p.description.getD r.description
    stops := p.stops.getD r.stops
    isActive := p.isActive.getD r.isActive }

/-- Partial-record patch for MemStorage.updateDriver. -/
structure DriverPatch where
  id : Option ℕ := none
  name : Option String := none
  contactNumber : Option (Option String) := none
  isActive : Option Bool := none

/-- The spread merge of updateDriver. -/
def Driver.merge (d : Driver) (p : DriverPatch) : Driver :=
  { id := p.id.getD d.id
    name := p.name.getD d.name
    contactNumber := p.contactNumber.getD d.contactNumber
    isActive := p.isActive.getD d.isActive }

/-- Partial-record patch for MemStorage.updatePayment. -/
structure PaymentPatch where
  id : Option ℕ := none
  userId : Option ℕ := none
  amount : Option ℤ := none
  dueDate : Option String := none
  isPaid : Option Bool := none
  paymentDate : Option (Option ℤ) := none
  paymentMethod : Option (Option String) := none
  description : Option String := none
  category : Option String := none
  semester : Option (Option String) := none
  academicYear : Option (Option String) := none
  createdAt : Option (Option ℤ) := none

/-- The spread merge of updatePayment. -/
def Payment.merge (pay : Payment) (p : PaymentPatch) : Payment :=
  { id := p.id.getD pay.id
    userId := p.userId.getD pay.userId
    amount := p.amount.getD pay.amount
    dueDate := p.dueDate.getD pay.dueDate
    isPaid := p.isPaid.getD pay.isPaid
    paymentDate := p.paymentDate.getD pay.paymentDate
    paymentMethod := p.paymentMethod.getD pay.paymentMethod
    description := p.description.getD pay.description
    category := p.category.getD pay.category
    semester := p.semester.getD pay.semester
    academicYear := p.academicYear.getD pay.academicYear
    createdAt := p.createdAt.getD pay.createdAt }

/-- A JS Map keyed by numeric id, as the private Map fields of MemStorage. -/
def MMap (α : Type) : Type := ℕ → Option α

/-- Map.get. -/
def MMap.get {α : Type} (m : MMap α) (k : ℕ) : Option α := m k

/-- Map.set. -/
def MMap.set {α : Type} (m : MMap α) (k : ℕ) (v : α) : MMap α :=
  fun j => if j = k then some v else m j

/-- An empty Map, as produced by `new Map()`. -/
def MMap.empty {α : Type} : MMap α := fun _ => none

/-- The mutable state of the MemStorage class (part_002, lines 59-97): six Maps
and six auto-increment id counters. The session store is external and omitted. -/
structure MemStorage where
  users : MMap User
  buses : MMap Bus
  busStops : MMap BusStop
  routes : MMap Route
  drivers : MMap Driver
  payments : MMap Payment
  userId : ℕ
  busId : ℕ
  busStopId : ℕ
  routeId : ℕ
  driverId : ℕ
  paymentId : ℕ

/-- The MemStorage constructor state before seedData runs: empty Maps, all
counters 1. -/
def MemStorage.emptyState : MemStorage :=
  { users := MMap.empty, buses := MMap.empty, busStops := MMap.empty,
    routes := MMap.empty, drivers := MMap.empty, payments := MMap.empty,
    userId := 1, busId := 1, busStopId := 1, routeId := 1,
    driverId := 1, paymentId := 1 }

/-- MemStorage.createUser (lines 110-123). The crypto.randomBytes token and the
`new Date()` call are nondeterministic inputs, passed here as explicit
arguments. -/
def MemStorage.createUser (s : MemStorage) (iu : InsertUser) (token : String)
    (now : ℤ) : User × MemStorage :=
  let id := s.userId
  let user : User :=
    { id := id, username := iu.username, email := iu.email,
      password := iu.password, fullName := iu.fullName, role := iu.role,
      urn := iu.urn, department := iu.department, classYear := iu.classYear,
      contactNumber := iu.contactNumber, address := iu.address,
      isEmailVerified := false, verificationToken := some token,
      lastLogin := none, createdAt := some now }
  (user, { s with users := s.users.set id user, userId := id + 1 })

/-- MemStorage.updateUser (lines 131-138). -/
def MemStorage.updateUser (s : MemStorage) (id : ℕ) (p : UserPatch) :
    Option User × MemStorage :=
  match s.users id with
  | none => (none, s)
  | some user =>
    let updatedUser := user.merge p
    (some updatedUser, { s with users := s.users.set id updatedUser })

/-- MemStorage.verifyEmail (lines 140-151). -/
def MemStorage.verifyEmail (s : MemStorage) (id : ℕ) :
    Option User × MemStorage :=
  match s.users id with
  | none => (none, s)
  | some user =>
    let updatedUser := { user with isEmailVerified := true, verificationToken := none }
    (some updatedUser, { s with users := s.users.set id updatedUser })

/-- MemStorage.setVerificationToken (lines 153-160). -/
def MemStorage.setVerificationToken (s : MemStorage) (id : ℕ) (token : String) :
    Option User × MemStorage :=
  match s.users id with
  | none => (none, s)
  | some user =>
    let updatedUser := { user with verificationToken := some token }
    (some updatedUser, { s with users := s.users.set id updatedUser })

/-- MemStorage.createBus (lines 183-188): assigns id busId++, stores the new
record. -/
def MemStorage.createBus (s : MemStorage) (ib : InsertBus) : Bus × MemStorage :=
  let id := s.busId
  let bus : Bus :=
    { id := id, busNumber := ib.busNumber, route := ib.route,
      status := ib.status, capacity := ib.capacity,
      currentCapacity := ib.currentCapacity, location := ib.location,
      speed := ib.speed, driverId := ib.driverId, lastStop := ib.lastStop,
      isActive := ib.isActive }
  (bus, { s with buses := s.buses.set id bus, busId := id + 1 })

/-- MemStorage.updateBus (lines 190-197). -/
def MemStorage.updateBus (s : MemStorage) (id : ℕ) (p : BusPatch) :
    Option Bus × MemStorage :=
  match s.buses id with
  | none => (none, s)
  | some bus =>
    let updatedBus := bus.merge p
    (some updatedBus, { s with buses := s.buses.set id updatedBus })

/-- MemStorage.updateBusLocation (lines 199-211): if the bus exists, overwrite
its location, and its speed only when the optional speed argument was supplied;
return undefined (none) and leave the state untouched otherwise. There is no
ordering-key, staleness or plausibility check of any kind. -/
def MemStorage.updateBusLocation (s : MemStorage) (id : ℕ) (location : LatLng)
    (speed : Option ℚ) : Option Bus × MemStorage :=
  match s.buses id with
  | none => (none, s)
  | some bus =>
    let updatedBus :=
      { bus with location := location,
                 speed := match speed with
                          | some v => some v
                          | none => bus.speed }
    (some updatedBus, { s with buses := s.buses.set id updatedBus })

/-- MemStorage.createBusStop (lines 228-233). -/
def MemStorage.createBusStop (s : MemStorage) (ib : InsertBusStop) :
    BusStop × MemStorage :=
  let id := s.busStopId
  let stop : BusStop :=
    { id := id, name := ib.name, location := ib.location, routeId := ib.routeId }
  (stop, { s with busStops := s.busStops.set id stop, busStopId := id + 1 })

/-- MemStorage.createRoute (lines 244-249). -/
def MemStorage.createRoute (s : MemStorage) (ir : InsertRoute) :
    Route × MemStorage :=
  let id := s.routeId
  let route : Route :=
    { id := id, name := ir.name, description := ir.description,
      stops := ir.stops, isActive := ir.isActive }
  (route, { s with routes := s.routes.set id route, routeId := id + 1 })

/-- MemStorage.updateRoute (lines 251-258). -/
def MemStorage.updateRoute (s : MemStorage) (id : ℕ) (p : RoutePatch) :
    Option Route × MemStorage :=
  match s.routes id with
  | none => (none, s)
  | some route =>
    let updatedRoute := route.merge p
    (some updatedRoute, { s with routes := s.routes.set id updatedRoute })

/-- MemStorage.createDriver (lines 269-274). -/
def MemStorage.createDriver (s : MemStorage) (idr : InsertDriver) :
    Driver × MemStorage :=
  let id := s.driverId
  let driver : Driver :=
    { id := id, name := idr.name, contactNumber := idr.contactNumber,
      isActive := idr.isActive }
  (driver, { s with drivers := s.drivers.set id driver, driverId := id + 1 })

/-- MemStorage.updateDriver (lines 276-283). -/
def MemStorage.updateDriver (s : MemStorage) (id : ℕ) (p : DriverPatch) :
    Option Driver × MemStorage :=
  match s.drivers id with
  | none => (none, s)
  | some driver =>
    let updatedDriver := driver.merge p
    (some updatedDriver, { s with drivers := s.drivers.set id updatedDriver })

/-- MemStorage.createPayment (lines 302-314); `new Date()` passed as `now`. -/
def MemStorage.createPayment (s : MemStorage) (ip : InsertPayment) (now : ℤ) :
    Payment × MemStorage :=
  let id := s.paymentId
  let payment : Payment :=
    { id := id, userId := ip.userId, amount := ip.amount,
      dueDate := ip.dueDate, isPaid := false, paymentDate := none,
      paymentMethod := none, description := ip.description,
      category := ip.category, semester := ip.semester,
      academicYear := ip.academicYear, createdAt := some now }
  (payment, { s with payments := s.payments.set id payment, paymentId := id + 1 })

/-- MemStorage.updatePayment (lines 316-323). -/
def MemStorage.updatePayment (s : MemStorage) (id : ℕ) (p : PaymentPatch) :
    Option Payment × MemStorage :=
  match s.payments id with
  | none => (none, s)
  | some payment =>
    let updatedPayment := payment.merge p
    (some updatedPayment, { s with payments := s.payments.set id updatedPayment })

/-- MemStorage.markPaymentAsPaid (lines 325-337); `new Date()` passed as `now`. -/
def MemStorage.markPaymentAsPaid (s : MemStorage) (id : ℕ) (method : String)
    (now : ℤ) : Option Payment × MemStorage :=
  match s.payments id with
  | none => (none, s)
  | some payment =>
    let updatedPayment :=
      { payment with isPaid := true, paymentDate := some now,
                     paymentMethod := some method }
    (some updatedPayment, { s with payments := s.payments.set id updatedPayment })

/-- MemStorage.seedData (lines 339-462): the sample routes, stops, drivers and
buses created by the constructor, with the same dynamic counter reads
(campusLoopRouteId etc.) as the source. -/
def MemStorage.seedData (s : MemStorage) : MemStorage :=
  let campusLoopRouteId := s.routeId
  let s := (s.createRoute
    { name := "Campus Loop",
      description := some "Main campus loop covering all major buildings",
      stops := [1, 2, 3, 4], isActive := true }).2
  let dormRouteId := s.routeId
  let s := (s.createRoute
    { name := "Dormitory Route",
      description := some "Route connecting all dormitories to central campus",
      stops := [5, 6, 7], isActive := true }).2
  let s := (s.createBusStop
    { name := "Science Building", location := ⟨34.0522, -118.2437⟩,
      routeId := campusLoopRouteId }).2
  let s := (s.createBusStop
    { name := "Library", location := ⟨34.0548, -118.2450⟩,
      routeId := campusLoopRouteId }).2
  let s := (s.createBusStop
    { name := "Student Center", location := ⟨34.0530, -118.2420⟩,
      routeId := campusLoopRouteId }).2
  let s := (s.createBusStop
    { name := "Athletic Complex", location := ⟨34.0510, -118.2400⟩,
      routeId := campusLoopRouteId }).2
  let s := (s.createBusStop
    { name := "North Dormitories", location := ⟨34.0560, -118.2440⟩,
      routeId := dormRouteId }).2
  let s := (s.createBusStop
    { name := "South Dormitories", location := ⟨34.0500, -118.2460⟩,
      routeId := dormRouteId }).2
  let s := (s.createBusStop
    { name := "West Dormitories", location := ⟨34.0525, -118.2480⟩,
      routeId := dormRouteId }).2
  let driverId1 := s.driverId
  let s := (s.createDriver
    { name := "Michael Johnson", contactNumber := some "555-123-4567",
      isActive := true }).2
  let driverId2 := s.driverId
  let s := (s.createDriver
    { name := "Sarah Williams", contactNumber := some "555-987-6543",
      isActive := true }).2
  let driverId3 := s.driverId
  let s := (s.createDriver
    { name := "Robert Davis", contactNumber := some "555-555-5555",
      isActive := true }).2
  let s := (s.createBus
    { busNumber := "101", route := "Campus Loop", status := "on-time",
      capacity := 40, currentCapacity := 26,
      location := ⟨34.0522, -118.2437⟩, speed := some 18,
      driverId := some driverId1, lastStop := some "Student Center",
      isActive := true }).2
  let s := (s.createBus
    { busNumber := "202", route := "Dormitory Route", status := "delayed",
      capacity := 30, currentCapacity := 15,
      location := ⟨34.0548, -118.2450⟩, speed := some 12,
      driverId := some driverId2, lastStop := some "North Dormitories",
      isActive := true }).2
  let s := (s.createBus
    { busNumber := "303", route := "Campus Loop", status := "on-time",
      capacity := 40, currentCapacity := 32,
      location := ⟨34.0510, -118.2400⟩, speed := some 20,
      driverId := some driverId3, lastStop := some "Athletic Complex",
      isActive := true }).2
  s

/-- The state produced by `new MemStorage()` (empty maps, counters 1, then
seedData), the exported singleton `storage`. -/
def MemStorage.init : MemStorage := MemStorage.emptyState.seedData

/-- A position report as the spec's PositionReport (section 3): vehicle
position, optional speed, and an ordering key (sequence number or report
timestamp). The server transmits and stores no such key; it is carried here so
that the spec's ordering claims can be stated against the code. -/
structure PositionReport where
  orderingKey : ℕ
  location : LatLng
  speed : Option ℚ
  deriving DecidableEq, Repr

/-- Folding one position report into the store, as the PUT
/api/buses/:id/location handler does after validation (routes.ts line 101): only
lat, lng and the optional speed reach updateBusLocation; the ordering key is
ignored. -/
def ingestReport (s : MemStorage) (vehicleId : ℕ) (r : PositionReport) :
    Option Bus × MemStorage :=
  s.updateBusLocation vehicleId r.location r.speed

/-- Folding a whole delivery sequence of reports for one vehicle into the
store, in delivery order. -/
def applyReports (s : MemStorage) (vehicleId : ℕ)
    (rs : List PositionReport) : MemStorage :=
  rs.foldl (fun st r => (ingestReport st vehicleId r).2) s

/-- A raw JSON field of the request body: a number, or something else. -/
inductive JsonField where
  | num (q : ℚ)
  | nonNum
  deriving DecidableEq, Repr

/-- The raw body of a PUT /api/buses/:id/location request: each of lat, lng,
speed is absent (none) or present. -/
structure RawLocationBody where
  lat : Option JsonField
  lng : Option JsonField
  speed : Option JsonField
  deriving DecidableEq, Repr

/-- locationSchema.safeParse (routes.ts lines 83-92): lat and lng must be
numbers, speed is an optional number; anything else fails. -/
def parseLocationBody (b : RawLocationBody) : Option (ℚ × ℚ × Option ℚ) :=
  match b.lat, b.lng, b.speed with
  | some (.num la), some (.num ln), none => some (la, ln, none)
  | some (.num la), some (.num ln), some (.num sp) => some (la, ln, some sp)
  | _, _, _ => none

/-- The outcome of the PUT /api/buses/:id/location handler: 403 Unauthorized,
400 Invalid location data, 400 Invalid bus ID, 404 Bus not found, or 200 with
the updated bus. -/
inductive LocationResult where
  | unauthorized
  | invalidLocationData
  | invalidBusId
  | busNotFound
  | ok (bus : Bus)
  deriving DecidableEq, Repr

/-- The PUT /api/buses/:id/location handler (routes.ts lines 76-110): admin
check, zod validation of the body, parseInt of the id (none models NaN), then
storage.updateBusLocation. -/
def putBusLocation (s : MemStorage) (isAdmin : Bool) (busId : Option ℕ)
    (body : RawLocationBody) : LocationResult × MemStorage :=
  if !isAdmin then (.unauthorized, s)
  else
    match parseLocationBody body with
    | none => (.invalidLocationData, s)
    | some (la, ln, sp) =>
      match busId with
      | none => (.invalidBusId, s)
      | some id =>
        match s.updateBusLocation id ⟨la, ln⟩ sp with
        | (none, s2) => (.busNotFound, s2)
        | (some bus, s2) => (.ok bus, s2)

/-- One mutating MemStorage operation together with its inputs; the
nondeterministic token and clock inputs are part of the operation. Getter
methods do not change the state and need no step. -/
inductive Op where
  | createUser (iu : InsertUser) (token : String) (now : ℤ)
  | updateUser (id : ℕ) (p : UserPatch)
  | verifyEmail (id : ℕ)
  | setVerificationToken (id : ℕ) (token : String)
  | createBus (ib : InsertBus)
  | updateBus (id : ℕ) (p : BusPatch)
  | updateBusLocation (id : ℕ) (location : LatLng) (speed : Option ℚ)
  | createBusStop (ib : InsertBusStop)
  | createRoute (ir : InsertRoute)
  | updateRoute (id : ℕ) (p : RoutePatch)
  | createDriver (idr : InsertDriver)
  | updateDriver (id : ℕ) (p : DriverPatch)
  | createPayment (ip : InsertPayment) (now : ℤ)
  | updatePayment (id : ℕ) (p : PaymentPatch)
  | markPaymentAsPaid (id : ℕ) (method : String) (now : ℤ)

/-- The state transition of one operation. -/
def MemStorage.applyOp (s : MemStorage) : Op → MemStorage
  | .createUser iu token now => (s.createUser iu token now).2
  | .updateUser id p => (s.updateUser id p).2
  | .verifyEmail id => (s.verifyEmail id).2
  | .setVerificationToken id token => (s.setVerificationToken id token).2
  | .createBus ib => (s.createBus ib).2
  | .updateBus id p => (s.updateBus id p).2
  | .updateBusLocation id location speed => (s.updateBusLocation id location speed).2
  | .createBusStop ib => (s.createBusStop ib).2
  | .createRoute ir => (s.createRoute ir).2
  | .updateRoute id p => (s.updateRoute id p).2
  | .createDriver idr => (s.createDriver idr).2
  | .updateDriver id p => (s.updateDriver id p).2
  | .createPayment ip now => (s.createPayment ip now).2
  | .updatePayment id p => (s.updatePayment id p).2
  | .markPaymentAsPaid id method now => (s.markPaymentAsPaid id method now).2

/-- A MemStorage state reachable from the constructor state by running
operations. -/
def Reachable (s : MemStorage) : Prop :=
  ∃ ops : List Op, s = ops.foldl MemStorage.applyOp MemStorage.init

/-- Every key stored in the map is below the auto-increment counter. -/
def FreshKeys {α : Type} (m : MMap α) (c : ℕ) : Prop :=
  ∀ k, (m k).isSome → k < c

/-- The id-freshness invariant of MemStorage: each of the six maps only holds
keys below its counter. -/
def FreshIds (s : MemStorage) : Prop :=
  FreshKeys s.users s.userId ∧ FreshKeys s.buses s.busId ∧
  FreshKeys s.busStops s.busStopId ∧ FreshKeys s.routes s.routeId ∧
  FreshKeys s.drivers s.driverId ∧ FreshKeys s.payments s.paymentId

/-- What claim C10 asserts of one create operation over one map: the assigned
id is the counter, its key was absent, it exceeds every previously stored id,
and every other key is untouched. -/
def CreateOk {α : Type} (m : MMap α) (c : ℕ) (result : MMap α) (newId : ℕ) : Prop :=
  newId = c ∧ m newId = none ∧ (∀ k, (m k).isSome → k < newId) ∧
  (∀ k, k ≠ newId → result k = m k)

/-- A sample registered bus used as concrete input (integer coordinates keep
every example kernel-computable). -/
def ibA : InsertBus :=
  { busNumber := "101", route := "Campus Loop", status := "on-time",
    capacity := 40, currentCapacity := 26, location := ⟨34, -118⟩,
    speed := some 18, driverId := some 1, lastStop := some "Student Center",
    isActive := true }

/-- The Bus record createBus makes of ibA in an empty store: id 1. -/
def busA : Bus :=
  { id := 1, busNumber := "101", route := "Campus Loop", status := "on-time",
    capacity := 40, currentCapacity := 26, location := ⟨34, -118⟩,
    speed := some 18, driverId := some 1, lastStop := some "Student Center",
    isActive := true }

/-- A small concrete store: the constructor state holding the single bus ibA
under id 1. -/
def demoStorage : MemStorage := (MemStorage.emptyState.createBus ibA).2

/-- The scenario vehicle of spec section 8: on route R, smoothed speed
20 km/h. -/
def busV1 : Bus :=
  { id := 1, busNumber := "V1", route := "R", status := "on-time",
    capacity := 40, currentCapacity := 0, location := ⟨0, 0⟩,
    speed := some 20, driverId := none, lastStop := none, isActive := true }

/-- A bus whose reported speed is zero. -/
def busZeroSpeed : Bus :=
  { id := 1, busNumber := "Z", route := "R", status := "on-time",
    capacity := 40, currentCapacity := 0, location := ⟨0, 0⟩,
    speed := some 0, driverId := none, lastStop := none, isActive := true }

/-- An out-of-service bus shown in the info panel. -/
def c4bus : Bus :=
  { id := 1, busNumber := "404", route := "Campus Loop",
    status := "out-of-service", capacity := 40, currentCapacity := 0,
    location := ⟨34, -118⟩, speed := some 20, driverId := none,
    lastStop := none, isActive := true }

/-- The newer report of the C1 counterexample: ordering key 5. -/
def c1report1 : PositionReport :=
  { orderingKey := 5, location := ⟨35, -117⟩, speed := some 25 }

/-- The older (out-of-order) report of the C1 counterexample: ordering key 3. -/
def c1report2 : PositionReport :=
  { orderingKey := 3, location := ⟨36, -116⟩, speed := some 10 }

/-- The store after the newer report was folded in, so its stored state has
ordering key 5 in the spec's bookkeeping. -/
def c1state1 : MemStorage := (ingestReport demoStorage 1 c1report1).2

/-- First report (ordering key 1) of the C2 counterexample. -/
def c2ra : PositionReport :=
  { orderingKey := 1, location := ⟨35, -117⟩, speed := some 25 }

/-- Second report (ordering key 2) of the C2 counterexample. -/
def c2rb : PositionReport :=
  { orderingKey := 2, location := ⟨36, -116⟩, speed := some 30 }

/-- A store holding one bus registered as out-of-service under id 1. -/
def c8storage : MemStorage :=
  (MemStorage.emptyState.createBus
    { busNumber := "202", route := "Dormitory Route",
      status := "out-of-service", capacity := 30, currentCapacity := 15,
      location := ⟨34, -118⟩, speed := some 12, driverId := some 2,
      lastStop := none, isActive := true }).2

/-- jsRound agrees with the mathematical floor of q + 1/2. -/
theorem jsRound_eq (q : ℚ) : jsRound q = Int.floor (q + 1/2) := by
  rw [jsRound, Rat.floor_def]

/-- jsRound is monotone. -/
theorem jsRound_mono {a b : ℚ} (h : a ≤ b) : jsRound a ≤ jsRound b := by
  rw [jsRound_eq, jsRound_eq]
  exact Int.floor_le_floor (by linarith)

/-- jsRound of a non-negative rational is non-negative. -/
theorem jsRound_nonneg {a : ℚ} (h : 0 ≤ a) : 0 ≤ jsRound a := by
  rw [jsRound_eq]
  exact Int.le_floor.mpr (by push_cast; linarith)

/-- Closed form of calculateETA: minutes are 3d div (50 v) for the effective
speed v. -/
theorem calculateETA_eq (bus : Bus) (d : ℚ) (hv : effectiveSpeedKmh bus ≠ 0) :
    calculateETA bus d = jsRound (3 * d / (50 * effectiveSpeedKmh bus)) := by
  simp only [calculateETA]
  congr 1
  field_simp
  ring

/-- updateBusLocation on an existing bus stores the location/speed update at
that id. -/
theorem updateBusLocation_buses_some (s : MemStorage) (id : ℕ) (loc : LatLng)
    (sp : Option ℚ) (b : Bus) (h : s.buses id = some b) :
    (s.updateBusLocation id loc sp).2.buses id =
      some { b with location := loc,
                    speed := match sp with
                             | some v => some v
                             | none => b.speed } := by
  simp [MemStorage.updateBusLocation, h, MMap.set]

/-- ingestReport keeps an existing bus present. -/
theorem ingestReport_isSome (s : MemStorage) (vid : ℕ) (r : PositionReport)
    (h : (s.buses vid).isSome) :
    ((ingestReport s vid r).2.buses vid).isSome := by
  obtain ⟨b, hb⟩ := Option.isSome_iff_exists.mp h
  have hupd := updateBusLocation_buses_some s vid r.location r.speed b hb
  simp [ingestReport, hupd]

/-- applyReports keeps an existing bus present. -/
theorem applyReports_isSome (s : MemStorage) (vid : ℕ)
    (rs : List PositionReport) (h : (s.buses vid).isSome) :
    ((applyReports s vid rs).buses vid).isSome := by
  induction rs generalizing s with
  | nil => exact h
  | cons r rs ih => exact ih _ (ingestReport_isSome s vid r h)

/-- Claim C4 (counterexample): an out-of-service bus displayed in the bus info
panel still receives a full list of three numeric ETA projections (3, 6 and 11
minutes at 20 km/h); no unavailable result is produced. -/
theorem c4_counterexample :
    c4bus.status = "out-of-service" ∧ nextStops c4bus ≠ [] ∧
    (nextStops c4bus).map StopEta.eta = [3, 6, 11] := by
  refine ⟨rfl, by simp [nextStops], ?_⟩
  simp only [nextStops, calculateETA, effectiveSpeedKmh, c4bus, jsRound_eq,
    List.map]
  norm_num

/-- Claim C4 (amended): only the home page's nearest-buses list excludes
out-of-service vehicles; the bus info panel computes numeric ETA projections
for every bus regardless of status, and nothing returns an unavailable
result. -/
theorem c4_amended :
    (∀ (buses : List Bus) (rand : ℕ → ℚ) (p : Bus × ℤ),
      p ∈ getNearestBuses buses rand → p.1.status ≠ "out-of-service") ∧
    (∀ bus : Bus, (nextStops bus).length = 3) := by
  constructor
  · intro buses rand p hp
    simp only [getNearestBuses, List.mem_map] at hp
    obtain ⟨⟨i, b⟩, hmem, rfl⟩ := hp
    have hb : b ∈ (buses.filter (fun b => b.status != "out-of-service")).take 3 :=
      List.getElem?_mem (List.mk_mem_enum_iff_getElem?.mp hmem)
    have hb2 := List.mem_filter.mp (List.take_subset 3 _ hb)
    simpa using hb2.2
  · intro bus
    rfl

/-- Witness for c4_amended at a concrete in-service bus and random stream. -/
theorem c4_witness :
    ((busA, 1) ∈ getNearestBuses [busA] (fun _ => 0) ∧
      busA.status ≠ "out-of-service") ∧
    (nextStops busA).length = 3 := by
  have hm : (busA, 1) ∈ getNearestBuses [busA] (fun _ => 0) := by
    simp [getNearestBuses, busA]
  exact ⟨⟨hm, c4_amended.1 [busA] (fun _ => 0) (busA, 1) hm⟩, c4_amended.2 busA⟩

/-- Claim C5: when the recorded speed is zero or missing, calculateETA
substitutes the positive fallback 20 km/h, never divides by zero, and for a
non-negative stop distance returns the finite non-negative whole-minute value
round(3d div 1000). -/
theorem c5_fallback_speed (bus : Bus) (d : ℚ)
    (hs : bus.speed = none ∨ bus.speed = some 0) (hd : 0 ≤ d) :
    effectiveSpeedKmh bus = 20 ∧
    calculateETA bus d = jsRound (3 * d / 1000) ∧
    0 ≤ calculateETA bus d := by
  have hv : effectiveSpeedKmh bus = 20 := by
    rcases hs with h | h <;> simp [effectiveSpeedKmh, h]
  have he : calculateETA bus d = jsRound (3 * d / 1000) := by
    rw [calculateETA_eq bus d (by rw [hv]; norm_num), hv]
    congr 1
    norm_num
  refine ⟨hv, he, ?_⟩
  rw [he]
  exact jsRound_nonneg (by positivity)

/-- Witness for c5_fallback_speed: a stopped bus, 900 m to the stop, ETA 3
minutes. -/
theorem c5_witness :
    (busZeroSpeed.speed = none ∨ busZeroSpeed.speed = some 0) ∧ (0:ℚ) ≤ 900 ∧
    (effectiveSpeedKmh busZeroSpeed = 20 ∧
     calculateETA busZeroSpeed 900 = jsRound (3 * 900 / 1000) ∧
     0 ≤ calculateETA busZeroSpeed 900) :=
  ⟨Or.inr rfl, by norm_num,
   c5_fallback_speed busZeroSpeed 900 (Or.inr rfl) (by norm_num)⟩

/-- Claim C6 (counterexample): on the spec scenario (stops B at 1000 m and C at
3000 m, vehicle at 500 m, speed 20 km/h) the spec formula gives 1.5 and 7.5
minutes, but calculateETA returns the whole-minute value 2 for the remaining
500 m, so the ETA does not equal remaining distance over speed; moreover the
info panel feeds calculateETA the fixed distances 900/2100/3600 m, never
stop-minus-vehicle distance-along-route. -/
theorem c6_counterexample :
    etaSpecMinutes 1000 500 20 = 3/2 ∧ etaSpecMinutes 3000 500 20 = 15/2 ∧
    (calculateETA busV1 500 : ℚ) ≠ etaSpecMinutes 1000 500 20 ∧
    calculateETA busV1 500 = 2 ∧
    (nextStops busV1).map StopEta.distance = [900, 2100, 3600] := by
  refine ⟨by norm_num [etaSpecMinutes], by norm_num [etaSpecMinutes], ?_, ?_, rfl⟩
  · simp only [calculateETA, effectiveSpeedKmh, busV1, jsRound_eq, etaSpecMinutes]
    norm_num
  · simp only [calculateETA, effectiveSpeedKmh, busV1, jsRound_eq]
    norm_num

/-- Claim C6 (amended): calculateETA returns the whole-minute rounding of the
caller-supplied distance divided by the speed (no subtraction of the vehicle's
distance-along-route happens anywhere; the panel passes the fixed distances
900/2100/3600 m); on the scenario's remaining distances of 500 m and 2500 m at
20 km/h it returns 2 and 8 minutes, the roundings of 1.5 and 7.5. -/
theorem c6_amended :
    (∀ d : ℚ, calculateETA busV1 d = jsRound (etaSpecMinutes d 0 20)) ∧
    calculateETA busV1 500 = 2 ∧ calculateETA busV1 2500 = 8 ∧
    (nextStops busV1).map StopEta.distance = [900, 2100, 3600] := by
  refine ⟨?_, ?_, ?_, rfl⟩
  · intro d
    simp only [calculateETA, effectiveSpeedKmh, busV1, etaSpecMinutes]
    norm_num
  · simp only [calculateETA, effectiveSpeedKmh, busV1, jsRound_eq]
    norm_num
  · simp only [calculateETA, effectiveSpeedKmh, busV1, jsRound_eq]
    norm_num

/-- Claim C7 (counterexample): ETAs are not strictly increasing in stop
distance: at 20 km/h the stops 10 m and 20 m away both get the rounded ETA 0
minutes. -/
theorem c7_counterexample :
    (10 : ℚ) < 20 ∧ calculateETA busV1 10 = 0 ∧ calculateETA busV1 20 = 0 := by
  refine ⟨by norm_num, ?_, ?_⟩ <;>
    · simp only [calculateETA, effectiveSpeedKmh, busV1, jsRound_eq]
      norm_num

/-- Claim C7 (amended): for a positive effective speed, calculateETA at
distance 0 is 0 minutes, and the ETA is monotone non-decreasing (not strictly
increasing, because of the whole-minute rounding) in the stop distance. -/
theorem c7_amended (bus : Bus) (h : 0 < effectiveSpeedKmh bus) :
    calculateETA bus 0 = 0 ∧
    ∀ d1 d2 : ℚ, d1 ≤ d2 → calculateETA bus d1 ≤ calculateETA bus d2 := by
  have hv : effectiveSpeedKmh bus ≠ 0 := ne_of_gt h
  constructor
  · rw [calculateETA_eq bus 0 hv]
    norm_num [jsRound_eq]
  · intro d1 d2 hd
    rw [calculateETA_eq bus d1 hv, calculateETA_eq bus d2 hv]
    apply jsRound_mono
    have h50 : (0:ℚ) < 50 * effectiveSpeedKmh bus :=
      mul_pos (by norm_num) h
    rw [div_le_div_iff₀ h50 h50]
    nlinarith

/-- Witness for c7_amended at the scenario vehicle. -/
theorem c7_witness :
    0 < effectiveSpeedKmh busV1 ∧
    (calculateETA busV1 0 = 0 ∧
     ∀ d1 d2 : ℚ, d1 ≤ d2 → calculateETA busV1 d1 ≤ calculateETA busV1 d2) :=
  ⟨by norm_num [effectiveSpeedKmh, busV1],
   c7_amended busV1 (by norm_num [effectiveSpeedKmh, busV1])⟩

/-- Claim C1 (counterexample): after a report with ordering key 5 has been
folded in, a report with the smaller ordering key 3 is not rejected:
updateBusLocation applies it and changes the stored state of bus 1. -/
theorem c1_counterexample :
    c1report2.orderingKey ≤ c1report1.orderingKey ∧
    (ingestReport c1state1 1 c1report2).2.buses 1 ≠ c1state1.buses 1 := by
  constructor
  · decide
  · decide

/-- Claim C1 (amended): updateBusLocation stores no ordering key and performs
no ordering check. For an existing bus every report is applied unconditionally
(last writer wins by arrival order); the only rejection, returning undefined
with the state untouched, is an unknown bus id. -/
theorem c1_amended (s : MemStorage) (id : ℕ) (loc : LatLng) (sp : Option ℚ) :
    (∀ b, s.buses id = some b →
      (s.updateBusLocation id loc sp).2.buses id =
        some { b with location := loc,
                      speed := match sp with
                               | some v => some v
                               | none => b.speed }) ∧
    (s.buses id = none → s.updateBusLocation id loc sp = (none, s)) := by
  constructor
  · intro b hb
    exact updateBusLocation_buses_some s id loc sp b hb
  · intro hb
    simp [MemStorage.updateBusLocation, hb]

/-- Witness for c1_amended: bus 1 of the demo store accepts an arbitrary
report. -/
theorem c1_amended_witness :
    demoStorage.buses 1 = some busA ∧
    (demoStorage.updateBusLocation 1 ⟨35, -117⟩ (some 25)).2.buses 1 =
      some { busA with location := ⟨35, -117⟩, speed := some 25 } :=
  ⟨by decide,
   (c1_amended demoStorage 1 ⟨35, -117⟩ (some 25)).1 busA (by decide)⟩

/-- Claim C2 (counterexample): delivering the reports with ordering keys 2 then
1 leaves a different final state for bus 1 than delivering them in ordering-key
order 1 then 2, although the two delivery sequences are permutations of each
other; the final state is not permutation invariant. -/
theorem c2_counterexample :
    List.Perm [c2rb, c2ra] [c2ra, c2rb] ∧
    List.Pairwise (fun x y : PositionReport => x.orderingKey ≤ y.orderingKey)
      [c2ra, c2rb] ∧
    (applyReports demoStorage 1 [c2rb, c2ra]).buses 1 ≠
      (applyReports demoStorage 1 [c2ra, c2rb]).buses 1 := by
  refine ⟨by decide, by decide, by decide⟩

/-- Claim C2 (amended): delivery order, not ordering key, determines the final
state: for an existing bus, after any delivery sequence the stored location is
the location of the last delivered report. -/
theorem c2_amended (s : MemStorage) (vid : ℕ) (b : Bus)
    (rs : List PositionReport) (r : PositionReport)
    (h : s.buses vid = some b) :
    ∃ b2, (applyReports s vid (rs ++ [r])).buses vid = some b2 ∧
      b2.location = r.location := by
  have hsome : ((applyReports s vid rs).buses vid).isSome :=
    applyReports_isSome s vid rs (by simp [h])
  obtain ⟨b1, hb1⟩ := Option.isSome_iff_exists.mp hsome
  have hstep : applyReports s vid (rs ++ [r]) =
      (ingestReport (applyReports s vid rs) vid r).2 := by
    simp [applyReports, List.foldl_append]
  rw [hstep]
  exact ⟨_, updateBusLocation_buses_some _ vid r.location r.speed b1 hb1, rfl⟩

/-- Witness for c2_amended: a single report delivered to the demo store. -/
theorem c2_amended_witness :
    demoStorage.buses 1 = some busA ∧
    ∃ b2, (applyReports demoStorage 1 ([] ++ [c2ra])).buses 1 = some b2 ∧
      b2.location = c2ra.location :=
  ⟨by decide, c2_amended demoStorage 1 busA [] c2ra (by decide)⟩

/-- Claim C3 (counterexample): a report with the negative speed -5 passes the
handler's validation (which only checks that lat, lng, speed are numbers),
returns 200 with the updated bus, and mutates the stored state: no
ImplausibleValue rejection exists. -/
theorem c3_counterexample :
    ((-5 : ℚ) < 0) ∧
    (putBusLocation demoStorage true (some 1)
        { lat := some (.num 34), lng := some (.num (-118)),
          speed := some (.num (-5)) }).1 =
      .ok { busA with location := ⟨34, -118⟩, speed := some (-5) } ∧
    (putBusLocation demoStorage true (some 1)
        { lat := some (.num 34), lng := some (.num (-118)),
          speed := some (.num (-5)) }).2.buses 1 ≠ demoStorage.buses 1 := by
  refine ⟨by decide, by decide, by decide⟩

/-- Claim C3 (amended): the PUT /api/buses/:id/location handler performs no
plausibility check: any numeric speed (negative or arbitrarily large) and any
numeric coordinates are accepted and stored for an existing bus; it rejects
only non-admin callers, bodies whose fields are not numbers, unparseable ids
and unknown buses, and every rejection leaves the store unchanged. -/
theorem c3_amended (s : MemStorage) :
    (∀ (admin : Bool) (oid : Option ℕ) (body : RawLocationBody),
      (∀ bus, (putBusLocation s admin oid body).1 ≠ LocationResult.ok bus) →
      (putBusLocation s admin oid body).2 = s) ∧
    (∀ (id : ℕ) (bus : Bus) (la ln sp : ℚ), s.buses id = some bus →
      putBusLocation s true (some id)
          { lat := some (.num la), lng := some (.num ln),
            speed := some (.num sp) } =
        (LocationResult.ok
            { bus with location := ⟨la, ln⟩, speed := some sp },
         { s with buses :=
            s.buses.set id { bus with location := ⟨la, ln⟩, speed := some sp } })) := by
  constructor
  · intro admin oid body hne
    cases admin with
    | false => rfl
    | true =>
      cases hp : parseLocationBody body with
      | none => simp [putBusLocation, hp]
      | some t =>
        obtain ⟨la, ln, sp⟩ := t
        cases oid with
        | none => simp [putBusLocation, hp]
        | some id =>
          cases hb : s.buses id with
          | none => simp [putBusLocation, hp, MemStorage.updateBusLocation, hb]
          | some bus =>
            exfalso
            cases sp with
            | none =>
              refine hne { bus with location := ⟨la, ln⟩ } ?_
              simp [putBusLocation, hp, MemStorage.updateBusLocation, hb]
            | some v =>
              refine hne { bus with location := ⟨la, ln⟩, speed := some v } ?_
              simp [putBusLocation, hp, MemStorage.updateBusLocation, hb]
  · intro id bus la ln sp hb
    simp [putBusLocation, parseLocationBody, MemStorage.updateBusLocation, hb]

/-- Witness for c3_amended: speed 999 (over any sanity ceiling) is accepted on
the demo store. -/
theorem c3_amended_witness :
    demoStorage.buses 1 = some busA ∧
    putBusLocation demoStorage true (some 1)
        { lat := some (.num 34), lng := some (.num (-118)),
          speed := some (.num 999) } =
      (LocationResult.ok { busA with location := ⟨34, -118⟩, speed := some 999 },
       { demoStorage with buses :=
          demoStorage.buses.set 1 { busA with location := ⟨34, -118⟩, speed := some 999 } }) :=
  ⟨by decide, (c3_amended demoStorage).2 1 busA 34 (-118) 999 (by decide)⟩

/-- Claim C8 (counterexample): a bus whose status is out-of-service does not
revert to an active status when a new valid position report arrives:
updateBusLocation leaves the status field untouched, and no code path ever
changes a status because of elapsed time. -/
theorem c8_counterexample :
    Option.map Bus.status (c8storage.buses 1) = some "out-of-service" ∧
    Option.map Bus.status
        ((c8storage.updateBusLocation 1 ⟨35, -117⟩ (some 15)).2.buses 1) =
      some "out-of-service" := by
  refine ⟨by decide, by decide⟩

/-- Claim C8 (amended): the storage layer contains no staleness transition at
all: state changes only through explicit operations, updateBusLocation
preserves every bus's status exactly (an out-of-service bus stays
out-of-service after a report, an active one stays active), and it touches no
other bus. Status only changes through explicit update operations outside the
position-report path. -/
theorem c8_amended (s : MemStorage) (id : ℕ) (loc : LatLng) (sp : Option ℚ) :
    Option.map Bus.status ((s.updateBusLocation id loc sp).2.buses id) =
      Option.map Bus.status (s.buses id) ∧
    ∀ k, k ≠ id → (s.updateBusLocation id loc sp).2.buses k = s.buses k := by
  constructor
  · cases hb : s.buses id with
    | none => simp [MemStorage.updateBusLocation, hb]
    | some bus => simp [MemStorage.updateBusLocation, hb, MMap.set]
  · intro k hk
    cases hb : s.buses id with
    | none => simp [MemStorage.updateBusLocation, hb]
    | some bus => simp [MemStorage.updateBusLocation, hb, MMap.set, hk]

/-- Witness for c8_amended on the out-of-service demo store. -/
theorem c8_witness :
    (2 ≠ 1) ∧
    (c8storage.updateBusLocation 1 ⟨35, -117⟩ (some 15)).2.buses 2 =
      c8storage.buses 2 :=
  ⟨by decide, (c8_amended c8storage 1 ⟨35, -117⟩ (some 15)).2 2 (by decide)⟩

/-- Claim C9: updateBusLocation on an existing bus rewrites exactly the
location, and the speed only when the optional speed argument is supplied
(with the stored speed kept when it is omitted); busNumber, route, status,
capacity, currentCapacity, driverId, lastStop and isActive are all carried
over unchanged by the record spread, every other bus is untouched, and the
five other entity maps are untouched. -/
theorem c9_frame (s : MemStorage) (id : ℕ) (loc : LatLng) (sp : Option ℚ)
    (b : Bus) (h : s.buses id = some b) :
    (s.updateBusLocation id loc sp).2.buses id =
      some { b with location := loc,
                    speed := match sp with
                             | some v => some v
                             | none => b.speed } ∧
    (∀ k, k ≠ id → (s.updateBusLocation id loc sp).2.buses k = s.buses k) ∧
    (s.updateBusLocation id loc sp).2.users = s.users ∧
    (s.updateBusLocation id loc sp).2.busStops = s.busStops ∧
    (s.updateBusLocation id loc sp).2.routes = s.routes ∧
    (s.updateBusLocation id loc sp).2.drivers = s.drivers ∧
    (s.updateBusLocation id loc sp).2.payments = s.payments ∧
    (sp = none → (s.updateBusLocation id loc sp).2.buses id =
      some { b with location := loc }) := by
  refine ⟨updateBusLocation_buses_some s id loc sp b h, ?_, ?_, ?_, ?_, ?_, ?_, ?_⟩
  · intro k hk
    simp [MemStorage.updateBusLocation, h, MMap.set, hk]
  · simp [MemStorage.updateBusLocation, h]
  · simp [MemStorage.updateBusLocation, h]
  · simp [MemStorage.updateBusLocation, h]
  · simp [MemStorage.updateBusLocation, h]
  · simp [MemStorage.updateBusLocation, h]
  · intro hsp
    subst hsp
    exact updateBusLocation_buses_some s id loc none b h

/-- Witness for c9_frame: a report without a speed keeps busA's stored speed
and all other fields. -/
theorem c9_witness :
    demoStorage.buses 1 = some busA ∧
    (demoStorage.updateBusLocation 1 ⟨35, -117⟩ none).2.buses 1 =
      some { busA with location := ⟨35, -117⟩ } :=
  ⟨by decide,
   (c9_frame demoStorage 1 ⟨35, -117⟩ none busA (by decide)).2.2.2.2.2.2.2 rfl⟩

/-- The empty map has fresh keys for any counter. -/
theorem freshKeys_empty {α : Type} (c : ℕ) :
    FreshKeys (MMap.empty : MMap α) c := by
  intro k hk
  simp [MMap.empty] at hk

/-- Writing at the counter key and bumping the counter keeps keys fresh. -/
theorem FreshKeys.set_new {α : Type} {m : MMap α} {c : ℕ}
    (h : FreshKeys m c) (v : α) : FreshKeys (m.set c v) (c + 1) := by
  intro k hk
  by_cases hkc : k = c
  · omega
  · have : (m k).isSome := by simpa [MMap.set, hkc] using hk
    exact lt_trans (h k this) (Nat.lt_succ_self c)

/-- Overwriting an existing key keeps keys fresh. -/
theorem FreshKeys.set_existing {α : Type} {m : MMap α} {c k0 : ℕ}
    (h : FreshKeys m c) (hk0 : (m k0).isSome) (v : α) :
    FreshKeys (m.set k0 v) c := by
  intro k hk
  by_cases hkc : k = k0
  · subst hkc
    exact h k hk0
  · exact h k (by simpa [MMap.set, hkc] using hk)

/-- createUser preserves the id-freshness invariant. -/
theorem freshIds_createUser (s : MemStorage) (iu : InsertUser) (token : String)
    (now : ℤ) (h : FreshIds s) : FreshIds (s.createUser iu token now).2 := by
  obtain ⟨h1, h2, h3, h4, h5, h6⟩ := h
  exact ⟨h1.set_new _, h2, h3, h4, h5, h6⟩

/-- createBus preserves the id-freshness invariant. -/
theorem freshIds_createBus (s : MemStorage) (ib : InsertBus)
    (h : FreshIds s) : FreshIds (s.createBus ib).2 := by
  obtain ⟨h1, h2, h3, h4, h5, h6⟩ := h
  exact ⟨h1, h2.set_new _, h3, h4, h5, h6⟩

/-- createBusStop preserves the id-freshness invariant. -/
theorem freshIds_createBusStop (s : MemStorage) (ib : InsertBusStop)
    (h : FreshIds s) : FreshIds (s.createBusStop ib).2 := by
  obtain ⟨h1, h2, h3, h4, h5, h6⟩ := h
  exact ⟨h1, h2, h3.set_new _, h4, h5, h6⟩

/-- createRoute preserves the id-freshness invariant. -/
theorem freshIds_createRoute (s : MemStorage) (ir : InsertRoute)
    (h : FreshIds s) : FreshIds (s.createRoute ir).2 := by
  obtain ⟨h1, h2, h3, h4, h5, h6⟩ := h
  exact ⟨h1, h2, h3, h4.set_new _, h5, h6⟩

/-- createDriver preserves the id-freshness invariant. -/
theorem freshIds_createDriver (s : MemStorage) (idr : InsertDriver)
    (h : FreshIds s) : FreshIds (s.createDriver idr).2 := by
  obtain ⟨h1, h2, h3, h4, h5, h6⟩ := h
  exact ⟨h1, h2, h3, h4, h5.set_new _, h6⟩

/-- createPayment preserves the id-freshness invariant. -/
theorem freshIds_createPayment (s : MemStorage) (ip : InsertPayment) (now : ℤ)
    (h : FreshIds s) : FreshIds (s.createPayment ip now).2 := by
  obtain ⟨h1, h2, h3, h4, h5, h6⟩ := h
  exact ⟨h1, h2, h3, h4, h5, h6.set_new _⟩

/-- updateUser preserves the id-freshness invariant. -/
theorem freshIds_updateUser (s : MemStorage) (id : ℕ) (p : UserPatch)
    (h : FreshIds s) : FreshIds (s.updateUser id p).2 := by
  obtain ⟨h1, h2, h3, h4, h5, h6⟩ := h
  simp only [MemStorage.updateUser]
  cases hb : s.users id with
  | none => exact ⟨h1, h2, h3, h4, h5, h6⟩
  | some u => exact ⟨h1.set_existing (by simp [hb]) _, h2, h3, h4, h5, h6⟩

/-- verifyEmail preserves the id-freshness invariant. -/
theorem freshIds_verifyEmail (s : MemStorage) (id : ℕ)
    (h : FreshIds s) : FreshIds (s.verifyEmail id).2 := by
  obtain ⟨h1, h2, h3, h4, h5, h6⟩ := h
  simp only [MemStorage.verifyEmail]
  cases hb : s.users id with
  | none => exact ⟨h1, h2, h3, h4, h5, h6⟩
  | some u => exact ⟨h1.set_existing (by simp [hb]) _, h2, h3, h4, h5, h6⟩

/-- setVerificationToken preserves the id-freshness invariant. -/
theorem freshIds_setVerificationToken (s : MemStorage) (id : ℕ) (token : String)
    (h : FreshIds s) : FreshIds (s.setVerificationToken id token).2 := by
  obtain ⟨h1, h2, h3, h4, h5, h6⟩ := h
  simp only [MemStorage.setVerificationToken]
  cases hb : s.users id with
  | none => exact ⟨h1, h2, h3, h4, h5, h6⟩
  | some u => exact ⟨h1.set_existing (by simp [hb]) _, h2, h3, h4, h5, h6⟩

/-- updateBus preserves the id-freshness invariant. -/
theorem freshIds_updateBus (s : MemStorage) (id : ℕ) (p : BusPatch)
    (h : FreshIds s) : FreshIds (s.updateBus id p).2 := by
  obtain ⟨h1, h2, h3, h4, h5, h6⟩ := h
  simp only [MemStorage.updateBus]
  cases hb : s.buses id with
  | none => exact ⟨h1, h2, h3, h4, h5, h6⟩
  | some b => exact ⟨h1, h2.set_existing (by simp [hb]) _, h3, h4, h5, h6⟩

/-- updateBusLocation preserves the id-freshness invariant. -/
theorem freshIds_updateBusLocation (s : MemStorage) (id : ℕ) (loc : LatLng)
    (sp : Option ℚ) (h : FreshIds s) :
    FreshIds (s.updateBusLocation id loc sp).2 := by
  obtain ⟨h1, h2, h3, h4, h5, h6⟩ := h
  simp only [MemStorage.updateBusLocation]
  cases hb : s.buses id with
  | none => exact ⟨h1, h2, h3, h4, h5, h6⟩
  | some b => exact ⟨h1, h2.set_existing (by simp [hb]) _, h3, h4, h5, h6⟩

/-- updateRoute preserves the id-freshness invariant. -/
theorem freshIds_updateRoute (s : MemStorage) (id : ℕ) (p : RoutePatch)
    (h : FreshIds s) : FreshIds (s.updateRoute id p).2 := by
  obtain ⟨h1, h2, h3, h4, h5, h6⟩ := h
  simp only [MemStorage.updateRoute]
  cases hb : s.routes id with
  | none => exact ⟨h1, h2, h3, h4, h5, h6⟩
  | some r => exact ⟨h1, h2, h3, h4.set_existing (by simp [hb]) _, h5, h6⟩

/-- updateDriver preserves the id-freshness invariant. -/
theorem freshIds_updateDriver (s : MemStorage) (id : ℕ) (p : DriverPatch)
    (h : FreshIds s) : FreshIds (s.updateDriver id p).2 := by
  obtain ⟨h1, h2, h3, h4, h5, h6⟩ := h
  simp only [MemStorage.updateDriver]
  cases hb : s.drivers id with
  | none => exact ⟨h1, h2, h3, h4, h5, h6⟩
  | some d => exact ⟨h1, h2, h3, h4, h5.set_existing (by simp [hb]) _, h6⟩

/-- updatePayment preserves the id-freshness invariant. -/
theorem freshIds_updatePayment (s : MemStorage) (id : ℕ) (p : PaymentPatch)
    (h : FreshIds s) : FreshIds (s.updatePayment id p).2 := by
  obtain ⟨h1, h2, h3, h4, h5, h6⟩ := h
  simp only [MemStorage.updatePayment]
  cases hb : s.payments id with
  | none => exact ⟨h1, h2, h3, h4, h5, h6⟩
  | some pay => exact ⟨h1, h2, h3, h4, h5, h6.set_existing (by simp [hb]) _⟩

/-- markPaymentAsPaid preserves the id-freshness invariant. -/
theorem freshIds_markPaymentAsPaid (s : MemStorage) (id : ℕ) (method : String)
    (now : ℤ) (h : FreshIds s) :
    FreshIds (s.markPaymentAsPaid id method now).2 := by
  obtain ⟨h1, h2, h3, h4, h5, h6⟩ := h
  simp only [MemStorage.markPaymentAsPaid]
  cases hb : s.payments id with
  | none => exact ⟨h1, h2, h3, h4, h5, h6⟩
  | some pay => exact ⟨h1, h2, h3, h4, h5, h6.set_existing (by simp [hb]) _⟩

/-- Every single operation preserves the id-freshness invariant. -/
theorem freshIds_applyOp (s : MemStorage) (op : Op) (h : FreshIds s) :
    FreshIds (s.applyOp op) := by
  cases op with
  | createUser iu token now => exact freshIds_createUser s iu token now h
  | updateUser id p => exact freshIds_updateUser s id p h
  | verifyEmail id => exact freshIds_verifyEmail s id h
  | setVerificationToken id token => exact freshIds_setVerificationToken s id token h
  | createBus ib => exact freshIds_createBus s ib h
  | updateBus id p => exact freshIds_updateBus s id p h
  | updateBusLocation id loc sp => exact freshIds_updateBusLocation s id loc sp h
  | createBusStop ib => exact freshIds_createBusStop s ib h
  | createRoute ir => exact freshIds_createRoute s ir h
  | updateRoute id p => exact freshIds_updateRoute s id p h
  | createDriver idr => exact freshIds_createDriver s idr h
  | updateDriver id p => exact freshIds_updateDriver s id p h
  | createPayment ip now => exact freshIds_createPayment s ip now h
  | updatePayment id p => exact freshIds_updatePayment s id p h
  | markPaymentAsPaid id method now => exact freshIds_markPaymentAsPaid s id method now h

/-- Running any operation list preserves the id-freshness invariant. -/
theorem freshIds_foldl (ops : List Op) (s : MemStorage) (h : FreshIds s) :
    FreshIds (ops.foldl MemStorage.applyOp s) := by
  induction ops generalizing s with
  | nil => exact h
  | cons op ops ih => exact ih _ (freshIds_applyOp s op h)

/-- The constructor state before seeding satisfies the invariant. -/
theorem freshIds_emptyState : FreshIds MemStorage.emptyState :=
  ⟨freshKeys_empty 1, freshKeys_empty 1, freshKeys_empty 1,
   freshKeys_empty 1, freshKeys_empty 1, freshKeys_empty 1⟩

/-- seedData preserves the invariant. -/
theorem freshIds_seedData (s : MemStorage) (h : FreshIds s) :
    FreshIds s.seedData :=
  freshIds_createBus _ _ (freshIds_createBus _ _ (freshIds_createBus _ _
    (freshIds_createDriver _ _ (freshIds_createDriver _ _ (freshIds_createDriver _ _
      (freshIds_createBusStop _ _ (freshIds_createBusStop _ _ (freshIds_createBusStop _ _
        (freshIds_createBusStop _ _ (freshIds_createBusStop _ _ (freshIds_createBusStop _ _
          (freshIds_createBusStop _ _
            (freshIds_createRoute _ _ (freshIds_createRoute _ _ h))))))))))))))

/-- Every reachable state satisfies the id-freshness invariant. -/
theorem freshIds_reachable (s : MemStorage) (h : Reachable s) : FreshIds s := by
  obtain ⟨ops, rfl⟩ := h
  exact freshIds_foldl ops MemStorage.init
    (freshIds_seedData MemStorage.emptyState freshIds_emptyState)

/-- A map whose keys are all below the counter, extended at the counter key,
satisfies everything CreateOk asks. -/
theorem createOk_of_freshKeys {α : Type} {m : MMap α} {c : ℕ}
    (h : FreshKeys m c) (v : α) : CreateOk m c (m.set c v) c := by
  refine ⟨rfl, ?_, h, ?_⟩
  · cases hm : m c with
    | none => rfl
    | some x => exact absurd (h c (by simp [hm])) (lt_irrefl c)
  · intro k hk
    simp [MMap.set, hk]

/-- Claim C10: in every reachable MemStorage state, each of the six create
operations assigns the current counter as the new id, stores the record under
a key that was absent, assigns an id strictly greater than every id that map
already holds, and leaves every other record of that map unchanged. -/
theorem c10_create_fresh_ids (s : MemStorage) (h : Reachable s) :
    (∀ (iu : InsertUser) (token : String) (now : ℤ),
      CreateOk s.users s.userId ((s.createUser iu token now).2).users
        (s.createUser iu token now).1.id) ∧
    (∀ ib : InsertBus,
      CreateOk s.buses s.busId ((s.createBus ib).2).buses
        (s.createBus ib).1.id) ∧
    (∀ ib : InsertBusStop,
      CreateOk s.busStops s.busStopId ((s.createBusStop ib).2).busStops
        (s.createBusStop ib).1.id) ∧
    (∀ ir : InsertRoute,
      CreateOk s.routes s.routeId ((s.createRoute ir).2).routes
        (s.createRoute ir).1.id) ∧
    (∀ idr : InsertDriver,
      CreateOk s.drivers s.driverId ((s.createDriver idr).2).drivers
        (s.createDriver idr).1.id) ∧
    (∀ (ip : InsertPayment) (now : ℤ),
      CreateOk s.payments s.paymentId ((s.createPayment ip now).2).payments
        (s.createPayment ip now).1.id) := by
  obtain ⟨h1, h2, h3, h4, h5, h6⟩ := freshIds_reachable s h
  refine ⟨fun iu token now => ?_, fun ib => ?_, fun ib => ?_,
          fun ir => ?_, fun idr => ?_, fun ip now => ?_⟩
  · exact createOk_of_freshKeys h1 _
  · exact createOk_of_freshKeys h2 _
  · exact createOk_of_freshKeys h3 _
  · exact createOk_of_freshKeys h4 _
  · exact createOk_of_freshKeys h5 _
  · exact createOk_of_freshKeys h6 _

/-- Witness for c10_create_fresh_ids: the constructor state itself is
reachable (empty operation list), where createBus would assign id 4 after the
three seeded buses. -/
theorem c10_witness :
    Reachable MemStorage.init ∧
    (∀ ib : InsertBus,
      CreateOk MemStorage.init.buses MemStorage.init.busId
        ((MemStorage.init.createBus ib).2).buses
        (MemStorage.init.createBus ib).1.id) :=
  ⟨⟨[], rfl⟩, (c10_create_fresh_ids MemStorage.init ⟨[], rfl⟩).2.1⟩

end GPSBus

